import Mathlib

/-!
# Formal model of `rail_booking.py`

A shallow embedding of the railway e-ticket booking script: the seat
matcher (`find_available_seats`), the trip candidate selection, the
transport client (`axios_req`), the reservation round, the OTP
verification loop, the rollback handler and the `main` flow, together
with theorems settling the specification claims.

Strings are modelled as `List Char`; Python `dict.get` chains are
modelled with `Option`; Python exceptions are modelled with `Except`;
interactive prompts and HTTP responses are supplied by an explicit
`World` record of oracles; the completion order of the two thread-pool
fan-outs (candidate probing, per-ticket reservation) is supplied as an
explicit list of indices.
-/

namespace RailBooking

/-- Python strings, modelled as character lists. -/
abbrev Str := List Char

/-- Shorthand to write `Str` literals. -/
def str (s : String) : Str := s.data

/-- Python `str.lower()` (ASCII-adequate for the data in play). -/
def lowerStr (s : Str) : Str := s.map Char.toLower

/-- Python `str.strip()`: drop leading and trailing whitespace. -/
def pyStrip (s : Str) : Str :=
  ((s.dropWhile Char.isWhitespace).reverse.dropWhile Char.isWhitespace).reverse

/-- Does `p` occur at the head of `s`? (helper for substring search). -/
def leadMatch : Str → Str → Bool
  | [], _ => true
  | _ :: _, [] => false
  | a :: p, b :: s => a == b && leadMatch p s

/-- Python `p in s` substring containment. -/
def hasSub (p : Str) : Str → Bool
  | [] => p.isEmpty
  | c :: rest => leadMatch p (c :: rest) || hasSub p rest

/-- Python `s.split("-")`: never returns `[]`; `"" ↦ [""]`. -/
def splitDashAux (cur : Str) : Str → List Str
  | [] => [cur.reverse]
  | c :: rest =>
    if c = '-' then cur.reverse :: splitDashAux [] rest
    else splitDashAux (c :: cur) rest

/-- Python `s.split("-")`. -/
def splitDash (s : Str) : List Str := splitDashAux [] s

/-- The seat-number component the source compares against the allow-list:
`parts[1] if len(parts) > 1 else parts[-1]` of `seat_number.split("-")`,
i.e. the component after the *first* dash (the whole string if no dash). -/
def secondDashField (s : Str) : Str :=
  match splitDash s with
  | [] => []
  | [p] => p
  | _ :: p :: _ => p

/-- Modelled from the spec's words (for comparison with the source):
"the numeric suffix after the last `-` in the seat number string". -/
def specLastDashField (s : Str) : Str :=
  (splitDash s).getLastD []

/-- Modelled from the spec's words: allow-list membership "compared
case-insensitively / as trimmed strings" on the last-dash suffix. -/
def specSuffixMatch (allow : List Str) (seatNumber : Str) : Bool :=
  allow.any fun p =>
    pyStrip (lowerStr p) == pyStrip (lowerStr (specLastDashField seatNumber))

/-! ## Seat-layout data model (`data.seatLayout`) -/

/-- One seat cell of the layout grid (`seat.get(...)` fields). -/
structure SeatCell where
  seat_availability : Option Int
  seat_number : Option Str
  ticket_id : Option Nat
  deriving DecidableEq, Repr

/-- One coach: `floor_name` and a 2-D `layout` grid (rows may be null). -/
structure Coach where
  floor_name : Option Str
  layout : Option (List (Option (List SeatCell)))
  deriving DecidableEq, Repr

/-- The value found under the `"data"` key of the seat-layout response:
absent, present but not a dict (including JSON null), or a dict whose
`seatLayout` member is optional. -/
inductive DataMember where
  | absent
  | nonDict
  | dictVal (seatLayout : Option (List Coach))
  deriving DecidableEq, Repr

/-- The seat-layout response body: either not a dict at all, or a dict
with the modelled `"data"` member. -/
inductive SeatLayoutResponse where
  | notDict
  | dict (dataMember : DataMember)
  deriving DecidableEq, Repr

/-- The record appended by the matcher:
`{"ticket_id": seat.get("ticket_id"), "seat_number": seat.get("seat_number")}`. -/
structure CandidateSeat where
  ticket_id : Option Nat
  seat_number : Option Str
  deriving DecidableEq, Repr

/-- Python exceptions that the modelled fragments can raise. -/
inductive PyExn where
  | attributeError
  deriving DecidableEq, Repr

/-- Decidable equality for `Except` results (used to evaluate the model
on concrete inputs). -/
instance {ε α : Type} [DecidableEq ε] [DecidableEq α] :
    DecidableEq (Except ε α) := fun x y =>
  match x, y with
  | .ok a, .ok b =>
    if h : a = b then .isTrue (h ▸ rfl)
    else .isFalse fun hc => h (Except.ok.inj hc)
  | .ok _, .error _ => .isFalse fun hc => Except.noConfusion hc
  | .error _, .ok _ => .isFalse fun hc => Except.noConfusion hc
  | .error e, .error f =>
    if h : e = f then .isTrue (h ▸ rfl)
    else .isFalse fun hc => h (Except.error.inj hc)

/-- `seat_layout_response.get("data", {}).get("seatLayout")`: yields the
(optional) coach list, or raises `AttributeError` when the `"data"` value
is present but not a dict (e.g. `{"data": null}` — `.get` on a non-dict). -/
def seatLayoutOf : SeatLayoutResponse → Except PyExn (Option (List Coach))
  | .notDict => .ok none
  | .dict .absent => .ok none
  | .dict .nonDict => .error .attributeError
  | .dict (.dictVal sl) => .ok sl

/-- The cell iteration order of one coach:
`for row in (coach.get("layout") or []): for seat in (row or []):`. -/
def coachCells (c : Coach) : List SeatCell :=
  (c.layout.getD []).flatMap fun row => row.getD []

/-- The guard `seat.get("seat_availability") == 1 and seat.get("seat_number")`. -/
def seatOk (cell : SeatCell) : Bool :=
  cell.seat_availability == some 1 &&
    (match cell.seat_number with
     | some sn => !sn.isEmpty
     | none => false)

/-- The accumulation loop of `find_available_seats`, with the nested
coach/row/cell loops flattened into one cell list (which preserves both
the iteration order and the per-cell early return `len >= needed`). -/
def collectSeats (needed : Nat) (prefOpt : Option (List Str)) :
    List SeatCell → List CandidateSeat → List CandidateSeat
  | [], acc => acc
  | cell :: rest, acc =>
    if needed ≤ acc.length then acc
    else if seatOk cell then
      match prefOpt with
      | some ps =>
        if ps.contains (secondDashField (cell.seat_number.getD []))
        then collectSeats needed prefOpt rest (acc ++ [⟨cell.ticket_id, cell.seat_number⟩])
        else collectSeats needed prefOpt rest acc
      | none => collectSeats needed prefOpt rest (acc ++ [⟨cell.ticket_id, cell.seat_number⟩])
    else collectSeats needed prefOpt rest acc

/-- The coach selection: all coaches, or — when the coach allow-list is
nonempty — `[c for c in seat_layout if (c.get("floor_name") or "").lower()
in [c.lower().strip() for c in preferred_coaches]]`. -/
def coachesToSearch (preferred_coaches : List Str) (seatLayout : List Coach) :
    List Coach :=
  if preferred_coaches.isEmpty then seatLayout
  else
    let lower_coaches := preferred_coaches.map fun c => pyStrip (lowerStr c)
    seatLayout.filter fun c =>
      lower_coaches.contains (lowerStr (c.floor_name.getD []))

/-- The full, flattened cell scan order of one call of the matcher. -/
def respCells (resp : SeatLayoutResponse) (preferred_coaches : List Str) :
    List SeatCell :=
  match seatLayoutOf resp with
  | .ok (some sl) => (coachesToSearch preferred_coaches sl).flatMap coachCells
  | _ => []

/-- `find_available_seats(seat_layout_response, needed, preferred_coaches,
preferred_seats)`. -/
def find_available_seats (resp : SeatLayoutResponse) (needed : Nat)
    (preferred_coaches preferred_seats : List Str) :
    Except PyExn (List CandidateSeat) :=
  match seatLayoutOf resp with
  | .error e => .error e
  | .ok none => .ok []
  | .ok (some seatLayout) =>
    if seatLayout.isEmpty then .ok []
    else
      let prefOpt : Option (List Str) :=
        if preferred_seats.isEmpty then none else some preferred_seats
      .ok (collectSeats needed prefOpt
            ((coachesToSearch preferred_coaches seatLayout).flatMap coachCells) [])

/-! ## Train / search data model -/

/-- `st.get("seat_counts")`: only the `online` member is inspected. -/
structure SeatCounts where
  online : Option Int
  deriving DecidableEq, Repr

/-- One entry of `train["seat_types"]`. -/
structure SeatTypeOffer where
  type : Option Str
  seat_counts : Option SeatCounts
  trip_id : Option Nat
  trip_route_id : Option Nat
  deriving DecidableEq, Repr

/-- One entry of `train["boarding_points"]`. -/
structure BoardingPoint where
  trip_point_id : Option Nat
  deriving DecidableEq, Repr

/-- One train of the search response. -/
structure Train where
  trip_number : Option Str
  train_model : Option Str
  seat_types : Option (List SeatTypeOffer)
  boarding_points : Option (List BoardingPoint)
  deriving DecidableEq, Repr

/-- The chosen-trip record built by `_probe_candidate`. -/
structure Trip where
  trip_id : Option Nat
  trip_route_id : Option Nat
  train_label : Option Str
  boarding_point_id : Option Nat
  deriving DecidableEq, Repr

/-- `next((x for x in st_list if (x.get("type") or "").lower() == seat_class), None)`. -/
def findSeatType (seat_class : Str) (t : Train) : Option SeatTypeOffer :=
  (t.seat_types.getD []).find? fun x => lowerStr (x.type.getD []) == seat_class

/-- `_online_seats_for_class`: advertised online seat count of the
requested class; `0` when the class, counts or value are missing
(the `int(...)` conversion failure is likewise caught to `0`). -/
def online_seats_for_class (t : Train) (seat_class : Str) : Int :=
  match findSeatType seat_class t with
  | none => 0
  | some st => ((st.seat_counts.getD ⟨none⟩).online.getD 0)

/-- The startup normalisation of `TRAIN_NAME` (config line: `.lower()`). -/
def configTrainName (raw : Str) : Str := lowerStr raw

/-- The optional train-name filter:
`[t for t in trains if CONFIG["TRAIN_NAME"] in str((t.get("trip_number") or "")).lower()]`
(applied only when the configured name is nonempty). -/
def trainNameFilter (name : Str) (trains : List Train) : List Train :=
  if name.isEmpty then trains
  else trains.filter fun t => hasSub name (lowerStr (t.trip_number.getD []))

/-- `sorted(trains, key=lambda t: _online_seats_for_class(t, cls), reverse=True)`:
a stable descending sort, rendered as insertion sort with the relation
"left key ≥ right key" (stable sorts agree on their output). -/
def sortTrainsByOnline (seat_class : Str) (trains : List Train) : List Train :=
  List.insertionSort
    (fun a b => online_seats_for_class b seat_class ≤ online_seats_for_class a seat_class)
    trains

/-- The candidate trips submitted to the probe pool: name filter, stable
descending sort by advertised online count, then `sorted_trains[:K]`, `K = 3`. -/
def probeCandidates (name seat_class : Str) (trains : List Train) : List Train :=
  (sortTrainsByOnline seat_class (trainNameFilter name trains)).take 3

/-! ## Error model -/

/-- One per-ticket reservation outcome's recorded failure reason:
either `str(e)` of a raised exception or the response body `rr.data`. -/
inductive Reason where
  | excMsg (m : Str)
  | respBody (b : Str)
  deriving DecidableEq, Repr

/-- Generic JSON body: either not a dict, or a dict abstracted to the
members the source inspects. -/
inductive JBody (α : Type) where
  | nonDict
  | dict (d : α)
  deriving DecidableEq, Repr

/-- `data` member of the verify-otp response. -/
structure UserRec where
  name : Option Str
  email : Option Str
  mobile : Option Str
  deriving DecidableEq, Repr

/-- `data` member of the passenger-details (send OTP) response. -/
structure PDData where
  success : Bool
  msg : Option Str
  deriving DecidableEq, Repr

/-- `data` member of the verify-otp response. -/
structure VData where
  success : Bool
  user : Option UserRec
  deriving DecidableEq, Repr

/-- Exception messages, kept structured (the source formats f-strings). -/
inductive Msg where
  | timeoutRaised
  | requestExn (m : Str)
  | signinFailed
  | userAborted
  | bookingCancelled
  | noTrains
  | trainNotFound (name : Str)
  | seatClassNotFound
  | notEnoughCandidateSeats
  | attributeError
  | noCandidateQualified (need : Nat) (seat_class : Str)
  | notEnoughSeats (found need : Nat)
  | reserveInsufficient (got need : Nat) (sample : List (Option Nat × Option Reason))
  | otpTriggerFailed
  | otpFailed (lastErr : Option (JBody VData))
  | otpPayloadMissing
  | noPaymentUrl
  | browserFailed (m : Str)
  | rolledBackDefault
  | serverCoded (code : Option Nat) (firstMessage : Option Str)
  deriving DecidableEq, Repr

/-- `err.details` payloads attached to exceptions. -/
inductive Detail where
  | layout (r : SeatLayoutResponse)
  | reserveFailure (failures : List (Option Nat × Option Reason))
      (reserveResults : List (Bool × Option Nat × Option Reason))
  | errorPayload (code : Option Nat) (messages : List Str)
  deriving DecidableEq, Repr

/-- A raised Python exception: message plus optional `details` attribute. -/
structure ExcInfo where
  msg : Msg
  details : Option Detail
  deriving DecidableEq, Repr

/-- `details.get("error")` inspection used by the handler's message. -/
def detailErrorInfo : Detail → Option (Option Nat × List Str)
  | .errorPayload c m => some (c, m)
  | _ => none

/-- The `short_msg` the handler passes to `fatal`. -/
def shortMsgOf (details : Option Detail) : Msg :=
  match details with
  | some d =>
    match detailErrorInfo d with
    | some (c, msgs) => .serverCoded c msgs.head?
    | none => .rolledBackDefault
  | none => .rolledBackDefault

/-! ## Transport client (`axios_req`) -/

/-- What the network does for one request, as seen by `axios_req`:
time out, fail at the transport level, or deliver a response with a
status code, a raw text body and an optional successful JSON decoding. -/
inductive TransportEvent (α : Type) where
  | timeout
  | netFail (m : Str)
  | success (status : Nat) (jsonBody : Option α) (text : Str)
  deriving DecidableEq, Repr

/-- The body returned by `axios_req`: decoded JSON when `res.json()`
succeeds, else the raw text. -/
inductive RespBody (α : Type) where
  | json (v : α)
  | text (s : Str)
  deriving DecidableEq, Repr

/-- `(method or "post").lower()` — the dispatch key; every value still
issues a request (unknown methods fall back to a generic send). -/
def methodRoute (method : Option Str) : Str :=
  lowerStr (method.getD (str "post"))

/-- `axios_req`: raises a specialised error on timeout, re-raises other
request exceptions, and otherwise returns `(status_code, body)` with no
inspection of the status code. -/
def axios_req {α : Type} (method : Option Str) (ev : TransportEvent α) :
    Except ExcInfo (Nat × RespBody α) :=
  match methodRoute method, ev with
  | _, .timeout => .error ⟨.timeoutRaised, none⟩
  | _, .netFail m => .error ⟨.requestExn m, none⟩
  | _, .success st j t =>
    .ok (st, match j with
             | some v => .json v
             | none => .text t)

/-! ## Candidate probing -/

/-- The result record of a successful `_probe_candidate`. -/
structure Chosen where
  trip : Trip
  available_seats : List CandidateSeat
  raw : SeatLayoutResponse
  deriving DecidableEq, Repr

/-- `(train.get("boarding_points") or [{}])[0].get("trip_point_id")`. -/
def firstBoardingPointId (t : Train) : Option Nat :=
  match t.boarding_points with
  | some (bp :: _) => bp.trip_point_id
  | _ => none

/-- The trip record `_probe_candidate` builds from a winning candidate. -/
def tripOf (st : SeatTypeOffer) (t : Train) : Trip :=
  ⟨st.trip_id, st.trip_route_id,
   match t.trip_number with
   | some l => some l
   | none => t.train_model,
   firstBoardingPointId t⟩

/-- `_probe_candidate(train)`: find the seat-type entry for the class,
fetch the live seat layout (`net` is the outcome of that request), run
the matcher over `resp.data if isinstance(resp.data, dict) else {}`, and
succeed only with at least `need` matching seats; the
insufficient-seats failure attaches the original response body as
`details`. An `AttributeError` from the matcher propagates as an
exception without details. -/
def probeCandidate (seat_class : Str) (need : Nat) (pc ps : List Str)
    (train : Train) (net : Except ExcInfo SeatLayoutResponse) :
    Except ExcInfo Chosen :=
  match findSeatType seat_class train with
  | none => .error ⟨.seatClassNotFound, none⟩
  | some st =>
    match net with
    | .error e => .error e
    | .ok resp =>
      let respAdj := match resp with
                     | .notDict => .dict .absent
                     | r => r
      match find_available_seats respAdj need pc ps with
      | .error _ => .error ⟨.attributeError, none⟩
      | .ok avail =>
        if need ≤ avail.length then
          .ok ⟨tripOf st train, avail, respAdj⟩
        else .error ⟨.notEnoughCandidateSeats, some (.layout resp)⟩

/-- The `as_completed` fan-in over the probe futures: walk the
completion order (indices into `candidates`), stop at the first
successful probe, and accumulate the probe exceptions. -/
def probeLoop (seat_class : Str) (need : Nat) (pc ps : List Str)
    (candidates : List Train)
    (layoutOf : Nat → Except ExcInfo SeatLayoutResponse) :
    List Nat → List ExcInfo → Option Chosen × List ExcInfo
  | [], errs => (none, errs)
  | i :: rest, errs =>
    match candidates[i]? with
    | none => probeLoop seat_class need pc ps candidates layoutOf rest errs
    | some t =>
      match probeCandidate seat_class need pc ps t (layoutOf i) with
      | .ok c => (some c, errs)
      | .error e =>
        probeLoop seat_class need pc ps candidates layoutOf rest (errs ++ [e])

/-- `for pe in probe_errors: ... if det is not None: err.details = det; break`. -/
def firstDetail (errs : List ExcInfo) : Option Detail :=
  (errs.find? fun e => e.details.isSome).bind (·.details)

/-! ## Reservation round -/

/-- What the reserve-seat request does for one ticket id: the request
raises, or responds with a status code, the application-level
`data.error` truthiness, and an (opaque) body. -/
inductive ReserveNet where
  | raised (m : Str)
  | resp (status : Nat) (dataError : Bool) (body : Str)
  deriving DecidableEq, Repr

/-- `_reserve_one(tid)`: a triple `(ok, tid, reason)`; failure when the
status is `>= 300` or `data.error` is truthy; a raised exception is
caught into `(False, tid, str(e))`. -/
def reserveOne (net : ReserveNet) (tid : Option Nat) :
    Bool × Option Nat × Option Reason :=
  match net with
  | .raised m => (false, tid, some (.excMsg m))
  | .resp st dErr body =>
    if 300 ≤ st || dErr then (false, tid, some (.respBody body))
    else (true, tid, none)

/-- The `as_completed` fan-in of the reservation round: the results list
in completion order (`resOrder` is the completion order of the futures,
as indices into the submitted ticket list). -/
def gatherResults (resOrder : List Nat) (tids : List (Option Nat))
    (reserveNet : Option Nat → ReserveNet) :
    List (Bool × Option Nat × Option Reason) :=
  resOrder.filterMap fun i => (tids[i]?).map fun tid => reserveOne (reserveNet tid) tid

/-- The partition-and-check step after the reservation fan-in: require
`len(successes) >= NEED_SEATS`, else raise with a sample of the first 3
failures and full structured details; on success commit
`[tid for _, tid, _ in successes][:NEED_SEATS]`. -/
def reservePhase (need : Nat)
    (results : List (Bool × Option Nat × Option Reason)) :
    Except ExcInfo (List (Option Nat)) :=
  let successes := results.filter fun r => r.1
  let failures := results.filter fun r => !r.1
  if successes.length < need then
    .error ⟨.reserveInsufficient successes.length need
              ((failures.take 3).map fun r => (r.2.1, r.2.2)),
            some (.reserveFailure (failures.map fun r => (r.2.1, r.2.2)) results)⟩
  else .ok ((successes.map fun r => r.2.1).take need)

/-! ## OTP verification loop -/

/-- `re.match(r"^\d{4,6}$", otp)` together with the `not otp` guard. -/
def validOtp (otp : Str) : Bool :=
  decide (4 ≤ otp.length) && decide (otp.length ≤ 6) && otp.all Char.isDigit

/-- `(r.data.get("data") or {}).get("success")` truthiness. -/
def vSuccess : JBody VData → Bool
  | .dict d => d.success
  | .nonDict => false

/-- `(r.data.get("data") or {}).get("user")`. -/
def vUser : JBody VData → Option UserRec
  | .dict d => d.user
  | .nonDict => none

/-- The state after the OTP loop: the `otp_verified` flag,
`main_passenger`, `last_otp_error`, and the verify calls actually made,
as `(attempt, otp)` pairs in order. -/
structure OtpOut where
  verified : Bool
  user : Option UserRec
  lastErr : Option (JBody VData)
  calls : List (Nat × Str)
  deriving DecidableEq, Repr

/-- The body of `for attempt in range(1, 4)`: a malformed entry consumes
the attempt without a server call (`continue`); otherwise the verify
endpoint is called — a network exception propagates out of the loop; a
success response breaks; a rejection records `last_otp_error` and
continues. -/
def otpAttempts (entry : Nat → Str)
    (verify : Str → Except ExcInfo (JBody VData)) :
    List Nat → Option (JBody VData) → List (Nat × Str) →
    Except ExcInfo OtpOut
  | [], lastErr, calls => .ok ⟨false, none, lastErr, calls⟩
  | k :: rest, lastErr, calls =>
    let otp := entry k
    if validOtp otp then
      match verify otp with
      | .error e => .error e
      | .ok body =>
        if vSuccess body then .ok ⟨true, vUser body, lastErr, calls ++ [(k, otp)]⟩
        else otpAttempts entry verify rest (some body) (calls ++ [(k, otp)])
    else otpAttempts entry verify rest lastErr calls

/-- The whole bounded loop: attempts 1, 2, 3. -/
def otpRun (entry : Nat → Str)
    (verify : Str → Except ExcInfo (JBody VData)) : Except ExcInfo OtpOut :=
  otpAttempts entry verify [1, 2, 3] none []

/-- The loop followed by the
`if not otp_verified: raise ... Last error: json.dumps(last_otp_error)` check. -/
def otpVerifier (entry : Nat → Str)
    (verify : Str → Except ExcInfo (JBody VData)) : Except ExcInfo OtpOut :=
  match otpRun entry verify with
  | .error e => .error e
  | .ok out =>
    if out.verified then .ok out
    else .error ⟨.otpFailed out.lastErr, none⟩

/-! ## Rollback and the failure handler -/

/-- The release loop of the handler:
`for tid in successfully_reserved:` — per iteration, skip (with a log)
when the trip or its route id is unknown, otherwise issue the release
request inside its own `try/except` whose handler only logs, so a failed
release neither raises nor stops the remaining iterations. Returns the
ticket ids for which a release request was actually issued, in order. -/
def rollbackLoop (release : Option Nat → Except ExcInfo Unit)
    (trip : Option Trip) : List (Option Nat) → List (Option Nat)
  | [] => []
  | tid :: rest =>
    match trip with
    | none => rollbackLoop release none rest
    | some t =>
      match t.trip_route_id with
      | none => rollbackLoop release trip rest
      | some _ =>
        match release tid with
        | .ok _ => tid :: rollbackLoop release trip rest
        | .error _ => tid :: rollbackLoop release trip rest

/-- The observable end of one run: either `main` returned normally with
the payment page opened (the process then exits 0), or `fatal` was
reached: exit code 1, the logged original error and the reported short
message, plus the list of release calls the rollback issued. -/
inductive Outcome where
  | paymentOpened (url : Str)
  | exited (code : Nat) (errMsg : Msg) (reported : Msg)
      (releaseCalls : List (Option Nat))
  deriving DecidableEq, Repr

/-- `code 0` for a normal return of `main`, else the `sys.exit` code. -/
def outcomeExitCode : Outcome → Nat
  | .paymentOpened _ => 0
  | .exited c _ _ _ => c

/-- The `except` block of `main`: log the error, release the reserved
seats (only when any are recorded), compute the short message from the
error's `details`, and `fatal` → `sys.exit(1)`. -/
def runHandler (exc : ExcInfo) (trip : Option Trip)
    (reserved : List (Option Nat))
    (release : Option Nat → Except ExcInfo Unit) : Outcome :=
  let calls := if reserved.isEmpty then [] else rollbackLoop release trip reserved
  .exited 1 exc.msg (shortMsgOf exc.details) calls

/-! ## Passenger collection and the remaining prompts -/

/-- `(answer or "").strip().lower() in ("y", "yes")` (post-sign-in and
post-reservation checkpoints). -/
def proceedYes (s : Str) : Bool :=
  let t := lowerStr (pyStrip s)
  t == str "y" || t == str "yes"

/-- `confirmation.lower() in ("yes", "y")` (the payment checkpoint). -/
def confirmYes (s : Str) : Bool :=
  let t := lowerStr s
  t == str "yes" || t == str "y"

/-- Passenger-type normalisation: accept `adult`/`child`/`adlt`
(stripped, lowered), default `adult`. -/
def normType (p : Str) : Str :=
  let pl := lowerStr (pyStrip p)
  if pl == str "adult" || pl == str "child" || pl == str "adlt" then pl
  else str "adult"

/-- Gender normalisation: accept `male`/`female`, default `male`. -/
def normGender (g : Str) : Str :=
  let gl := lowerStr (pyStrip g)
  if gl == str "male" || gl == str "female" then gl
  else str "male"

/-- The parallel passenger detail lists. -/
structure PaxLists where
  pname : List (Option Str)
  passengerType : List Str
  gender : List Str
  deriving DecidableEq, Repr

/-- Index 0 is the OTP-verified user (`main_passenger.get("name")`,
literal `"Adult"`, literal `"male"`); indices `1 .. NEED_SEATS-1` are
prompted and normalised. -/
def collectPax (need : Nat) (mainName : Option Str)
    (nameF typeF genF : Nat → Str) : PaxLists :=
  let idxs := List.range' 1 (need - 1)
  ⟨mainName :: idxs.map fun i => some (nameF i),
   str "Adult" :: idxs.map fun i => normType (typeF i),
   str "male" :: idxs.map fun i => normGender (genF i)⟩

/-- The `passenger_payload` dict sent to the passenger-details and (with
the OTP appended) verify-otp endpoints. -/
structure PassengerPayload where
  trip_id : Option Nat
  trip_route_id : Option Nat
  ticket_ids : List (Option Nat)
  deriving DecidableEq, Repr

/-- `{"trip_id": trip["trip_id"], "trip_route_id": trip["trip_route_id"],
"ticket_ids": successfully_reserved}`. -/
def mkPassengerPayload (trip : Trip) (reserved : List (Option Nat)) :
    PassengerPayload :=
  ⟨trip.trip_id, trip.trip_route_id, reserved⟩

/-! ## Configuration and the world of oracles -/

/-- The configuration fields the core flow reads (already normalised by
the `CONFIG` construction: `SEAT_CLASS` and `TRAIN_NAME` lowered,
`PREFERRED_COACHES` stripped+lowered, `PREFERRED_SEATS` stripped). -/
structure Config where
  NEED_SEATS : Nat
  SEAT_CLASS : Str
  TRAIN_NAME : Str
  PREFERRED_COACHES : List Str
  PREFERRED_SEATS : List Str

/-- Everything outside the program: server responses per request site,
the user's prompt answers, and the completion orders of the two
thread-pool fan-outs. Each `Except`-valued field models that the
underlying `axios_req` call may itself raise. -/
structure World where
  signin : Except ExcInfo (JBody (Option Str))
  proceed1 : Str
  search : Except ExcInfo (JBody (Option (List Train)))
  layoutOf : Nat → Except ExcInfo SeatLayoutResponse
  probeOrder : List Nat
  reserveNet : Option Nat → ReserveNet
  resOrder : List Nat
  proceed2 : Str
  pdetails : PassengerPayload → Except ExcInfo (JBody PDData)
  otpEntry : Nat → Str
  verifyOtp : PassengerPayload → Str → Except ExcInfo (JBody VData)
  paxName : Nat → Str
  paxType : Nat → Str
  paxGender : Nat → Str
  confirmAns : Str
  confirm : Except ExcInfo (Nat × JBody (Option Str))
  browserOpen : Str → Except ExcInfo Unit
  release : Option Nat → Except ExcInfo Unit

/-- `(r.data.get("data") or {}).get("success")` truthiness for the
passenger-details response. -/
def pdSuccess : JBody PDData → Bool
  | .dict d => d.success
  | .nonDict => false

/-! ## The `main` flow -/

/-- The whole `try` body of `main` together with its `except` handler,
threading the three pieces of mutable transaction state the handler
reads (`token`, `trip`, `successfully_reserved`). Each raise site
transfers to `runHandler` with the state as it is at that moment. -/
def mainRun (cfg : Config) (w : World) : Outcome :=
  -- 1) sign-in
  match w.signin with
  | .error e => runHandler e none [] w.release
  | .ok sb =>
    let token : Option Str := match sb with
                              | .dict t => t
                              | .nonDict => none
    match token with
    | none => runHandler ⟨.signinFailed, none⟩ none [] w.release
    | some tk =>
      if tk.isEmpty then runHandler ⟨.signinFailed, none⟩ none [] w.release
      else if !proceedYes w.proceed1 then
        runHandler ⟨.userAborted, none⟩ none [] w.release
      else
        -- 2) search
        match w.search with
        | .error e => runHandler e none [] w.release
        | .ok qb =>
          let trains0 : List Train := match qb with
                                      | .dict d => d.getD []
                                      | .nonDict => []
          if trains0.isEmpty then runHandler ⟨.noTrains, none⟩ none [] w.release
          else
            let trains1 := trainNameFilter cfg.TRAIN_NAME trains0
            if !cfg.TRAIN_NAME.isEmpty && trains1.isEmpty then
              runHandler ⟨.trainNotFound cfg.TRAIN_NAME, none⟩ none [] w.release
            else
              -- 3) top-K candidate probing
              let candidates := (sortTrainsByOnline cfg.SEAT_CLASS trains1).take 3
              match probeLoop cfg.SEAT_CLASS cfg.NEED_SEATS cfg.PREFERRED_COACHES
                      cfg.PREFERRED_SEATS candidates w.layoutOf w.probeOrder [] with
              | (none, errs) =>
                runHandler ⟨.noCandidateQualified cfg.NEED_SEATS cfg.SEAT_CLASS,
                            firstDetail errs⟩ none [] w.release
              | (some ch, _) =>
                let trip := ch.trip
                if ch.available_seats.length < cfg.NEED_SEATS then
                  runHandler ⟨.notEnoughSeats ch.available_seats.length cfg.NEED_SEATS,
                              some (.layout ch.raw)⟩ (some trip) [] w.release
                else
                  -- 4) reservation fan-out
                  let tids := ch.available_seats.map (·.ticket_id)
                  let results := gatherResults w.resOrder tids w.reserveNet
                  match reservePhase cfg.NEED_SEATS results with
                  | .error e => runHandler e (some trip) [] w.release
                  | .ok reserved =>
                    if !proceedYes w.proceed2 then
                      runHandler ⟨.userAborted, none⟩ (some trip) reserved w.release
                    else
                      -- 5) trigger OTP send
                      let payload := mkPassengerPayload trip reserved
                      match w.pdetails payload with
                      | .error e => runHandler e (some trip) reserved w.release
                      | .ok pb =>
                        if !pdSuccess pb then
                          runHandler ⟨.otpTriggerFailed, none⟩ (some trip) reserved w.release
                        else
                          -- 6) OTP verification loop
                          match otpRun w.otpEntry (w.verifyOtp payload) with
                          | .error e => runHandler e (some trip) reserved w.release
                          | .ok out =>
                            if !out.verified then
                              runHandler ⟨.otpFailed out.lastErr, none⟩ (some trip)
                                reserved w.release
                            else
                              match out.user with
                              | none =>
                                -- `main_passenger.get("name")` on None
                                runHandler ⟨.attributeError, none⟩ (some trip)
                                  reserved w.release
                              | some u =>
                                -- 7) passenger details, 8) review prompt
                                let _pax := collectPax cfg.NEED_SEATS u.name
                                              w.paxName w.paxType w.paxGender
                                if !confirmYes w.confirmAns then
                                  runHandler ⟨.bookingCancelled, none⟩ (some trip)
                                    reserved w.release
                                else
                                  -- `if not otp_payload or not otp_payload.get("otp")`
                                  match out.calls.getLast? with
                                  | none =>
                                    runHandler ⟨.otpPayloadMissing, none⟩ (some trip)
                                      reserved w.release
                                  | some lastCall =>
                                    if lastCall.2.isEmpty then
                                      runHandler ⟨.otpPayloadMissing, none⟩ (some trip)
                                        reserved w.release
                                    else
                                      -- 9) confirm
                                      match w.confirm with
                                      | .error e =>
                                        runHandler e (some trip) reserved w.release
                                      | .ok (st, body) =>
                                        let urlOpt : Option Str :=
                                          if st = 200 then
                                            match body with
                                            | .dict uo => uo
                                            | .nonDict => none
                                          else none
                                        match urlOpt with
                                        | none =>
                                          runHandler ⟨.noPaymentUrl, none⟩ (some trip)
                                            reserved w.release
                                        | some url =>
                                          if url.isEmpty then
                                            runHandler ⟨.noPaymentUrl, none⟩ (some trip)
                                              reserved w.release
                                          else
                                            match w.browserOpen url with
                                            | .error e =>
                                              runHandler e (some trip) reserved w.release
                                            | .ok _ => .paymentOpened url

/-- The verify endpoint rejected this `(attempt, otp)` call. -/
def rejectedCall (verify : Str → Except ExcInfo (JBody VData))
    (p : Nat × Str) : Prop :=
  ∃ b, verify p.2 = .ok b ∧ vSuccess b = false

/-- Attempt `k` is consumed without success: the entry is malformed, or
the server rejects it. -/
def attemptBad (entry : Nat → Str)
    (verify : Str → Except ExcInfo (JBody VData)) (k : Nat) : Prop :=
  validOtp (entry k) = false ∨
    ∃ b, verify (entry k) = .ok b ∧ vSuccess b = false

/-! ## Concrete sample data (used by concrete theorems and witnesses) -/

/-- A seat-layout response with one coach `KA` and two available seats. -/
def sampleLayout : SeatLayoutResponse :=
  .dict (.dictVal (some
    [⟨some (str "KA"), some [some
       [⟨some 1, some (str "KA-1"), some 1⟩,
        ⟨some 1, some (str "KA-2"), some 2⟩]]⟩]))

/-- A seat-layout response with one available seat whose seat number
contains two dashes: `KA-5-9` (ticket id 7). -/
def twoDashLayout : SeatLayoutResponse :=
  .dict (.dictVal (some
    [⟨some (str "KA"), some [some
       [⟨some 1, some (str "KA-5-9"), some 7⟩]]⟩]))

/-- A search-result train: label `726`, class `S_CHAIR` with 10
advertised online seats, trip id 11, trip route id 22. -/
def sampleTrain : Train :=
  ⟨some (str "726"), none,
   some [⟨some (str "S_CHAIR"), some ⟨some 10⟩, some 11, some 22⟩],
   some [⟨some 5⟩]⟩

/-- The configuration of the concrete runs: 2 seats of class `s_chair`,
no train-name filter, no coach or seat preferences. -/
def sampleCfg : Config := ⟨2, str "s_chair", [], [], []⟩

/-- A world in which everything succeeds: sign-in yields a token, the
user says yes everywhere, the search returns `sampleTrain`, the probe
sees `sampleLayout`, every reservation succeeds, the first OTP is
accepted, and confirmation yields a payment URL. -/
def happyWorld : World where
  signin := .ok (.dict (some (str "tok")))
  proceed1 := str "yes"
  search := .ok (.dict (some [sampleTrain]))
  layoutOf := fun _ => .ok sampleLayout
  probeOrder := [0]
  reserveNet := fun _ => .resp 200 false (str "")
  resOrder := [0, 1]
  proceed2 := str "yes"
  pdetails := fun _ => .ok (.dict ⟨true, some (str "sent")⟩)
  otpEntry := fun _ => str "1234"
  verifyOtp := fun _ _ =>
    .ok (.dict ⟨true, some ⟨some (str "U"), some (str "e"), some (str "m")⟩⟩)
  paxName := fun _ => str "P"
  paxType := fun _ => str "Adult"
  paxGender := fun _ => str "male"
  confirmAns := str "yes"
  confirm := .ok (200, .dict (some (str "http://pay")))
  browserOpen := fun _ => .ok ()
  release := fun _ => .ok ()

/-- `happyWorld`, except that the reservation of ticket 2 is rejected by
the server (HTTP 422), so the round yields 1 success out of 2 needed. -/
def shortReserveWorld : World :=
  { happyWorld with
    reserveNet := fun tid =>
      if tid == some 1 then .resp 200 false (str "")
      else .resp 422 false (str "err") }

/-- `happyWorld`, except that the user declines the post-sign-in
confirmation checkpoint. -/
def declineWorld : World :=
  { happyWorld with proceed1 := str "no" }

/-! ## Seat Matcher lemmas -/

theorem collectSeats_length (needed : Nat) (prefOpt : Option (List Str))
    (cells : List SeatCell) :
    ∀ acc : List CandidateSeat, acc.length ≤ needed →
      (collectSeats needed prefOpt cells acc).length ≤ needed := by
  induction cells with
  | nil => intro acc h; simpa [collectSeats] using h
  | cons cell rest ih =>
    intro acc h
    by_cases h1 : needed ≤ acc.length
    · simpa [collectSeats, h1] using h
    · have hlt : acc.length < needed := Nat.lt_of_not_le h1
      have happ : ∀ x : CandidateSeat, (acc ++ [x]).length ≤ needed := by
        intro x; simpa using hlt
      by_cases h2 : seatOk cell
      · cases prefOpt with
        | none => simpa [collectSeats, h1, h2] using ih _ (happ _)
        | some ps =>
          by_cases h3 : secondDashField (cell.seat_number.getD []) ∈ ps
          · simpa [collectSeats, h1, h2, h3] using ih _ (happ _)
          · simpa [collectSeats, h1, h2, h3] using ih _ h
      · simpa [collectSeats, h1, h2] using ih _ h

theorem collectSeats_mem (needed : Nat) (prefOpt : Option (List Str))
    (cells : List SeatCell) :
    ∀ (acc : List CandidateSeat) (s : CandidateSeat),
      s ∈ collectSeats needed prefOpt cells acc →
      s ∈ acc ∨ ∃ cell, cell ∈ cells ∧ seatOk cell = true ∧
        s = ⟨cell.ticket_id, cell.seat_number⟩ ∧
        (∀ ps, prefOpt = some ps →
          secondDashField (cell.seat_number.getD []) ∈ ps) := by
  induction cells with
  | nil => intro acc s h; left; simpa [collectSeats] using h
  | cons cell rest ih =>
    intro acc s h
    by_cases h1 : needed ≤ acc.length
    · left; simpa [collectSeats, h1] using h
    · have lift : s ∈ acc ∨ (∃ cell', cell' ∈ rest ∧ seatOk cell' = true ∧
          s = ⟨cell'.ticket_id, cell'.seat_number⟩ ∧
          (∀ ps, prefOpt = some ps →
            secondDashField (cell'.seat_number.getD []) ∈ ps)) →
          s ∈ acc ∨ ∃ cell', cell' ∈ cell :: rest ∧ seatOk cell' = true ∧
            s = ⟨cell'.ticket_id, cell'.seat_number⟩ ∧
            (∀ ps, prefOpt = some ps →
              secondDashField (cell'.seat_number.getD []) ∈ ps) := by
        rintro (hs | ⟨c, hc, rest'⟩)
        · exact Or.inl hs
        · exact Or.inr ⟨c, List.mem_cons_of_mem _ hc, rest'⟩
      have appCase : ∀ hok : seatOk cell = true,
          (∀ ps, prefOpt = some ps →
            secondDashField (cell.seat_number.getD []) ∈ ps) →
          s ∈ acc ++ [(⟨cell.ticket_id, cell.seat_number⟩ : CandidateSeat)] ∨
            (∃ cell', cell' ∈ rest ∧ seatOk cell' = true ∧
              s = ⟨cell'.ticket_id, cell'.seat_number⟩ ∧
              (∀ ps, prefOpt = some ps →
                secondDashField (cell'.seat_number.getD []) ∈ ps)) →
          s ∈ acc ∨ ∃ cell', cell' ∈ cell :: rest ∧ seatOk cell' = true ∧
            s = ⟨cell'.ticket_id, cell'.seat_number⟩ ∧
            (∀ ps, prefOpt = some ps →
              secondDashField (cell'.seat_number.getD []) ∈ ps) := by
        rintro hok hpref (hs | ⟨c, hc, rest'⟩)
        · rcases List.mem_append.mp hs with hs | hs
          · exact Or.inl hs
          · refine Or.inr ⟨cell, List.mem_cons_self _ _, hok, ?_, hpref⟩
            simpa using hs
        · exact Or.inr ⟨c, List.mem_cons_of_mem _ hc, rest'⟩
      by_cases h2 : seatOk cell
      · cases hp : prefOpt with
        | none =>
          subst hp
          refine appCase h2 (by simp) ?_
          exact ih _ s (by simpa [collectSeats, h1, h2] using h)
        | some ps =>
          by_cases h3 : secondDashField (cell.seat_number.getD []) ∈ ps
          · subst hp
            refine appCase h2 ?_ ?_
            · intro ps' hps'; cases hps'; exact h3
            · exact ih _ s (by simpa [collectSeats, h1, h2, h3] using h)
          · subst hp
            exact lift (ih _ s (by simpa [collectSeats, h1, h2, h3] using h))
      · exact lift (ih _ s (by simpa [collectSeats, h1, h2] using h))

theorem seatOk_spec (cell : SeatCell) (h : seatOk cell = true) :
    cell.seat_availability = some 1 ∧
      ∃ sn, cell.seat_number = some sn ∧ sn ≠ [] := by
  rcases hsn : cell.seat_number with _ | sn
  · simp [seatOk, hsn] at h
  · simp [seatOk, hsn] at h
    exact ⟨h.1, sn, rfl, h.2⟩

/-- Combined soundness of the matcher: the fate (error / result list) in
each response shape, the `needed` cap, and per-seat provenance. -/
theorem find_available_seats_sound (resp : SeatLayoutResponse) (needed : Nat)
    (pc ps : List Str) (seats : List CandidateSeat)
    (h : find_available_seats resp needed pc ps = .ok seats) :
    seats.length ≤ needed ∧
    ∀ s ∈ seats, ∃ cell, cell ∈ respCells resp pc ∧ seatOk cell = true ∧
      s = ⟨cell.ticket_id, cell.seat_number⟩ ∧
      (ps ≠ [] → secondDashField (cell.seat_number.getD []) ∈ ps) := by
  rcases resp with _ | dm
  · simp [find_available_seats, seatLayoutOf] at h
    subst h; exact ⟨by simp, by simp⟩
  · rcases dm with _ | _ | sl
    · simp [find_available_seats, seatLayoutOf] at h
      subst h; exact ⟨by simp, by simp⟩
    · simp [find_available_seats, seatLayoutOf] at h
    · rcases sl with _ | coaches
      · simp [find_available_seats, seatLayoutOf] at h
        subst h; exact ⟨by simp, by simp⟩
      · by_cases hc : coaches.isEmpty
        · simp [find_available_seats, seatLayoutOf, hc] at h
          subst h; exact ⟨by simp, by simp⟩
        · rw [show find_available_seats (.dict (.dictVal (some coaches))) needed pc ps
                = .ok (collectSeats needed
                    (if ps.isEmpty then none else some ps)
                    ((coachesToSearch pc coaches).flatMap coachCells) [])
              from by simp [find_available_seats, seatLayoutOf, hc]] at h
          have hseats : seats = collectSeats needed
              (if ps.isEmpty then none else some ps)
              ((coachesToSearch pc coaches).flatMap coachCells) [] := by
            simpa using h.symm
          subst hseats
          constructor
          · exact collectSeats_length _ _ _ [] (Nat.zero_le _)
          · intro s hs
            rcases collectSeats_mem _ _ _ [] s hs with hmem | ⟨cell, hcell, hok, heq, hpref⟩
            · simp at hmem
            · refine ⟨cell, ?_, hok, heq, ?_⟩
              · simpa [respCells, seatLayoutOf] using hcell
              · intro hne
                have hpsE : ps.isEmpty = false := by
                  cases ps with
                  | nil => exact absurd rfl hne
                  | cons a l => rfl
                exact hpref ps (by simp [hpsE])

/-! ## Reservation fan-in lemmas -/

theorem gatherResults_length (tids : List (Option Nat))
    (net : Option Nat → ReserveNet) :
    ∀ resOrder : List Nat, (∀ i ∈ resOrder, i < tids.length) →
      (gatherResults resOrder tids net).length = resOrder.length := by
  intro resOrder
  induction resOrder with
  | nil => intro _; rfl
  | cons i rest ih =>
    intro h
    have hi : i < tids.length := h i (List.mem_cons_self _ _)
    have hget : tids[i]? = some tids[i] := List.getElem?_eq_getElem hi
    simp only [gatherResults, List.filterMap_cons, hget, Option.map_some']
    simpa [gatherResults] using ih fun j hj => h j (List.mem_cons_of_mem _ hj)

/-! ## Rollback lemmas -/

theorem rollbackLoop_calls (release : Option Nat → Except ExcInfo Unit)
    (t : Trip) (rid : Nat) (hrid : t.trip_route_id = some rid) :
    ∀ tickets : List (Option Nat),
      rollbackLoop release (some t) tickets = tickets := by
  intro tickets
  induction tickets with
  | nil => rfl
  | cons tid rest ih =>
    simp only [rollbackLoop, hrid]
    cases release tid <;> simp [ih]

/-! ## Sorting lemmas -/

theorem sortTrainsByOnline_sorted (seat_class : Str) (l : List Train) :
    List.Sorted
      (fun a b => online_seats_for_class b seat_class ≤ online_seats_for_class a seat_class)
      (sortTrainsByOnline seat_class l) := by
  haveI : IsTotal Train
      (fun a b => online_seats_for_class b seat_class ≤ online_seats_for_class a seat_class) :=
    ⟨fun a b => le_total _ _⟩
  haveI : IsTrans Train
      (fun a b => online_seats_for_class b seat_class ≤ online_seats_for_class a seat_class) :=
    ⟨fun _ _ _ h1 h2 => le_trans h2 h1⟩
  exact List.sorted_insertionSort _ l

theorem sortTrainsByOnline_perm (seat_class : Str) (l : List Train) :
    (sortTrainsByOnline seat_class l).Perm l :=
  List.perm_insertionSort _ l

/-! ## OTP loop lemmas -/

/-- Loop invariant of `otpAttempts`: provenance and bound of the calls
made, the shape of a success, and the shape of exhaustion. -/
theorem otpAttempts_spec (entry : Nat → Str)
    (verify : Str → Except ExcInfo (JBody VData)) :
    ∀ (ks : List Nat) (lastErr : Option (JBody VData))
      (calls : List (Nat × Str)) (out : OtpOut),
      (∀ p ∈ calls, rejectedCall verify p) →
      (calls = [] → lastErr = none) →
      (∀ p, calls.getLast? = some p → ∃ b, verify p.2 = .ok b ∧ lastErr = some b) →
      otpAttempts entry verify ks lastErr calls = .ok out →
      ((∃ extra, out.calls = calls ++ extra ∧ extra.length ≤ ks.length ∧
          ∀ p ∈ extra, p.1 ∈ ks ∧ p.2 = entry p.1 ∧ validOtp p.2 = true) ∧
       (out.verified = true →
          ∃ pre lastp b, out.calls = pre ++ [lastp] ∧
            (∀ p ∈ pre, rejectedCall verify p) ∧
            verify lastp.2 = .ok b ∧ vSuccess b = true ∧ out.user = vUser b) ∧
       (out.verified = false →
          (∀ p ∈ out.calls, rejectedCall verify p) ∧
          (out.calls = [] → out.lastErr = none) ∧
          (∀ p, out.calls.getLast? = some p →
            ∃ b, verify p.2 = .ok b ∧ out.lastErr = some b))) := by
  intro ks
  induction ks with
  | nil =>
    intro lastErr calls out hrej hnil hlast h
    have hout : OtpOut.mk false none lastErr calls = out := by
      simpa [otpAttempts] using h
    subst hout
    refine ⟨⟨[], by simp, by simp, by simp⟩, ?_, ?_⟩
    · intro h'; simp at h'
    · intro _; exact ⟨hrej, hnil, hlast⟩
  | cons k rest ih =>
    intro lastErr calls out hrej hnil hlast h
    by_cases hv : validOtp (entry k)
    · cases hvc : verify (entry k) with
      | error e =>
        rw [show otpAttempts entry verify (k :: rest) lastErr calls = .error e from by
              simp [otpAttempts, hv, hvc]] at h
        cases h
      | ok body =>
        by_cases hs : vSuccess body
        · have hout : OtpOut.mk true (vUser body) lastErr (calls ++ [(k, entry k)]) = out := by
            simpa [otpAttempts, hv, hvc, hs] using h
          subst hout
          refine ⟨⟨[(k, entry k)], rfl, by simp, ?_⟩, ?_, ?_⟩
          · intro p hp
            have hpe : p = (k, entry k) := by simpa using hp
            subst hpe
            exact ⟨List.mem_cons_self _ _, rfl, hv⟩
          · intro _
            exact ⟨calls, (k, entry k), body, rfl, hrej, hvc, hs, rfl⟩
          · intro h'; simp at h'
        · have h' : otpAttempts entry verify rest (some body)
              (calls ++ [(k, entry k)]) = .ok out := by
            simpa [otpAttempts, hv, hvc, hs] using h
          have hrej' : ∀ p ∈ calls ++ [(k, entry k)], rejectedCall verify p := by
            intro p hp
            rcases List.mem_append.mp hp with hp | hp
            · exact hrej p hp
            · have hpe : p = (k, entry k) := by simpa using hp
              subst hpe
              exact ⟨body, hvc, by simpa using hs⟩
          have hnil' : calls ++ [(k, entry k)] = [] →
              (some body : Option (JBody VData)) = none := by
            intro hc; simp at hc
          have hlast' : ∀ p, (calls ++ [(k, entry k)]).getLast? = some p →
              ∃ b, verify p.2 = .ok b ∧
                (some body : Option (JBody VData)) = some b := by
            intro p hp
            rw [List.getLast?_concat] at hp
            cases hp
            exact ⟨body, hvc, rfl⟩
          obtain ⟨⟨extra, hcalls, hlen, hmem⟩, h2, h3⟩ :=
            ih (some body) (calls ++ [(k, entry k)]) out hrej' hnil' hlast' h'
          refine ⟨⟨(k, entry k) :: extra, by simpa using hcalls, ?_, ?_⟩, h2, h3⟩
          · simpa using Nat.succ_le_succ hlen
          · intro p hp
            rcases List.mem_cons.mp hp with hp | hp
            · subst hp
              exact ⟨List.mem_cons_self _ _, rfl, hv⟩
            · obtain ⟨m1, m2, m3⟩ := hmem p hp
              exact ⟨List.mem_cons_of_mem _ m1, m2, m3⟩
    · have h' : otpAttempts entry verify rest lastErr calls = .ok out := by
        simpa [otpAttempts, hv] using h
      obtain ⟨⟨extra, hcalls, hlen, hmem⟩, h2, h3⟩ :=
        ih lastErr calls out hrej hnil hlast h'
      refine ⟨⟨extra, hcalls, Nat.le_succ_of_le hlen, ?_⟩, h2, h3⟩
      intro p hp
      obtain ⟨m1, m2, m3⟩ := hmem p hp
      exact ⟨List.mem_cons_of_mem _ m1, m2, m3⟩

/-! ## Claim theorems -/

/-- C7: for every seat-layout document, required count `n` and filters,
the Seat Matcher returns at most `n` seats, and every returned seat
stems from a scanned cell whose availability flag equals the available
value `1` (so a seat whose flag is not `1` is never returned). -/
theorem c7_seat_matcher_cap_and_availability (resp : SeatLayoutResponse)
    (needed : Nat) (pc ps : List Str) (seats : List CandidateSeat)
    (h : find_available_seats resp needed pc ps = .ok seats) :
    seats.length ≤ needed ∧
    ∀ s ∈ seats, ∃ cell, cell ∈ respCells resp pc ∧
      cell.seat_availability = some 1 ∧
      s.ticket_id = cell.ticket_id ∧ s.seat_number = cell.seat_number := by
  obtain ⟨h1, h2⟩ := find_available_seats_sound resp needed pc ps seats h
  refine ⟨h1, ?_⟩
  intro s hs
  obtain ⟨cell, hc, hok, heq, -⟩ := h2 s hs
  obtain ⟨hav, -⟩ := seatOk_spec cell hok
  exact ⟨cell, hc, hav, by rw [heq], by rw [heq]⟩

/-- C7 witness: the matcher on `sampleLayout` with `n = 1` returns
exactly the first available seat, and the theorem's conclusion holds
there. -/
theorem c7_witness :
    (find_available_seats sampleLayout 1 [] [] =
      .ok [⟨some 1, some (str "KA-1")⟩]) ∧
    (([(⟨some 1, some (str "KA-1")⟩ : CandidateSeat)]).length ≤ 1 ∧
      ∀ s ∈ [(⟨some 1, some (str "KA-1")⟩ : CandidateSeat)],
        ∃ cell, cell ∈ respCells sampleLayout [] ∧
          cell.seat_availability = some 1 ∧
          s.ticket_id = cell.ticket_id ∧ s.seat_number = cell.seat_number) :=
  ⟨by decide, c7_seat_matcher_cap_and_availability sampleLayout 1 [] [] _ (by decide)⟩

/-- C2 counterexample: with the allow-list `["5"]`, the matcher returns
the seat `KA-5-9` (its second dash-component `5` matches), although the
claim's "numeric suffix after the last `-`" of that seat, `9`, is not a
member of the allow-list (even trimmed and case-insensitively). -/
theorem c2_counterexample :
    find_available_seats twoDashLayout 1 [] [str "5"] =
      .ok [⟨some 7, some (str "KA-5-9")⟩] ∧
    specSuffixMatch [str "5"] (str "KA-5-9") = false := by
  exact ⟨by decide, by decide⟩

/-- C2 (amended): under a nonempty seat-number allow-list, every seat
returned by the Seat Matcher has a nonempty seat number whose component
after the *first* `-` (the whole string when there is no `-`) is, by
exact string comparison, a member of the allow-list; no other seats are
returned. -/
theorem c2_seat_filter_amended (resp : SeatLayoutResponse) (needed : Nat)
    (pc ps : List Str) (seats : List CandidateSeat)
    (hps : ps ≠ [])
    (h : find_available_seats resp needed pc ps = .ok seats) :
    ∀ s ∈ seats, ∃ sn, s.seat_number = some sn ∧ sn ≠ [] ∧
      secondDashField sn ∈ ps := by
  intro s hs
  obtain ⟨-, h2⟩ := find_available_seats_sound resp needed pc ps seats h
  obtain ⟨cell, -, hok, heq, hpref⟩ := h2 s hs
  obtain ⟨-, sn, hsn, hsnne⟩ := seatOk_spec cell hok
  refine ⟨sn, by rw [heq]; exact hsn, hsnne, ?_⟩
  have hmem := hpref hps
  simpa [hsn] using hmem

/-- C2 witness: the amended filter property at a concrete input — the
allow-list `["5"]` admits the seat `KA-5-9` through its second
dash-component. -/
theorem c2_witness :
    (([str "5"] : List Str) ≠ []) ∧
    (find_available_seats twoDashLayout 1 [] [str "5"] =
      .ok [⟨some 7, some (str "KA-5-9")⟩]) ∧
    ∀ s ∈ [(⟨some 7, some (str "KA-5-9")⟩ : CandidateSeat)],
      ∃ sn, s.seat_number = some sn ∧ sn ≠ [] ∧ secondDashField sn ∈ [str "5"] :=
  ⟨by decide, by decide,
   c2_seat_filter_amended twoDashLayout 1 [] [str "5"] _ (by decide) (by decide)⟩

/-- C10 counterexample: a seat-layout response that is a dict whose
`data` member is present but not a dict lacks `data.seatLayout`, yet the
matcher raises `AttributeError` instead of returning the empty list. -/
theorem c10_counterexample :
    find_available_seats (.dict .nonDict) 1 [] [] = .error .attributeError ∧
    ¬ find_available_seats (.dict .nonDict) 1 [] [] = .ok [] := by
  exact ⟨by decide, by decide⟩

/-- C10 (amended): the matcher returns the empty list (without raising)
when the response is not a dict, lacks the `data` member, or has a
missing or empty `data.seatLayout`; but when the `data` member is
present and not itself a dict, it raises `AttributeError`. An available
cell with a missing or empty seat number is skipped: every returned seat
has a nonempty seat number. -/
theorem c10_defensive_inputs (needed : Nat) (pc ps : List Str) :
    (find_available_seats .notDict needed pc ps = .ok [] ∧
     find_available_seats (.dict .absent) needed pc ps = .ok [] ∧
     find_available_seats (.dict (.dictVal none)) needed pc ps = .ok [] ∧
     find_available_seats (.dict (.dictVal (some []))) needed pc ps = .ok [] ∧
     find_available_seats (.dict .nonDict) needed pc ps = .error .attributeError) ∧
    ∀ (resp : SeatLayoutResponse) (seats : List CandidateSeat),
      find_available_seats resp needed pc ps = .ok seats →
      ∀ s ∈ seats, ∃ sn, s.seat_number = some sn ∧ sn ≠ [] := by
  refine ⟨⟨rfl, rfl, rfl, rfl, rfl⟩, ?_⟩
  intro resp seats h s hs
  obtain ⟨-, h2⟩ := find_available_seats_sound resp needed pc ps seats h
  obtain ⟨cell, -, hok, heq, -⟩ := h2 s hs
  obtain ⟨-, sn, hsn, hsnne⟩ := seatOk_spec cell hok
  exact ⟨sn, by rw [heq]; exact hsn, hsnne⟩

/-- C4: in every run that reaches the OTP step — i.e. the matcher
produced the candidate seats, the reservation fan-in returned (in any
completion order of the submitted futures) and the coordinator
committed — the `ticket_ids` of the passenger payload equal exactly the
successful results' ticket ids: the truncation `[:NEED_SEATS]` drops
nothing (the matcher returns at most `NEED_SEATS` candidates) and no
unreserved ticket is included. -/
theorem c4_otp_payload_ticket_ids (resp : SeatLayoutResponse) (need : Nat)
    (pc ps : List Str) (seats : List CandidateSeat)
    (net : Option Nat → ReserveNet) (resOrder : List Nat) (trip : Trip)
    (reserved : List (Option Nat))
    (hfind : find_available_seats resp need pc ps = .ok seats)
    (hord : resOrder.Perm (List.range seats.length))
    (hres : reservePhase need
        (gatherResults resOrder (seats.map (·.ticket_id)) net) = .ok reserved) :
    (mkPassengerPayload trip reserved).ticket_ids =
      ((gatherResults resOrder (seats.map (·.ticket_id)) net).filter
        (fun r => r.1)).map (fun r => r.2.1) := by
  have hlen1 : seats.length ≤ need :=
    (find_available_seats_sound resp need pc ps seats hfind).1
  have hidx : ∀ i ∈ resOrder, i < (seats.map (·.ticket_id)).length := by
    intro i hi
    simpa using List.mem_range.mp (hord.subset hi)
  have hlen2 : (gatherResults resOrder (seats.map (·.ticket_id)) net).length
      = resOrder.length := gatherResults_length _ _ _ hidx
  have hlen3 : resOrder.length = seats.length := by
    simpa using hord.length_eq
  set results := gatherResults resOrder (seats.map (·.ticket_id)) net with hre
  have hsucc_le : (results.filter fun r => r.1).length ≤ need := by
    calc (results.filter fun r => r.1).length
        ≤ results.length := List.length_filter_le _ _
      _ = resOrder.length := hlen2
      _ = seats.length := hlen3
      _ ≤ need := hlen1
  by_cases hc : (results.filter fun r => r.1).length < need
  · rw [show reservePhase need results = .error
        ⟨.reserveInsufficient (results.filter fun r => r.1).length need
            (((results.filter fun r => !r.1).take 3).map fun r => (r.2.1, r.2.2)),
          some (.reserveFailure ((results.filter fun r => !r.1).map fun r => (r.2.1, r.2.2))
            results)⟩ from by simp [reservePhase, hc]] at hres
    cases hres
  · have hok : reservePhase need results =
        .ok (((results.filter fun r => r.1).map fun r => r.2.1).take need) := by
      simp [reservePhase, hc]
    rw [hok] at hres
    have hreserved : reserved =
        ((results.filter fun r => r.1).map fun r => r.2.1).take need := by
      simpa using hres.symm
    have htake : ((results.filter fun r => r.1).map fun r => r.2.1).take need
        = (results.filter fun r => r.1).map fun r => r.2.1 :=
      List.take_of_length_le (by simpa using hsucc_le)
    show reserved = _
    rw [hreserved, htake]

/-- C4 witness: a concrete run — two matched seats, both reservations
succeed, completion order `[1, 0]` — where the committed payload ids
equal the successes exactly. -/
theorem c4_witness :
    (find_available_seats sampleLayout 2 [] [] =
      .ok [⟨some 1, some (str "KA-1")⟩, ⟨some 2, some (str "KA-2")⟩]) ∧
    ([1, 0].Perm (List.range 2)) ∧
    (reservePhase 2 (gatherResults [1, 0]
        [some 1, some 2] (fun _ => .resp 200 false (str ""))) =
      .ok [some 2, some 1]) ∧
    (mkPassengerPayload ⟨some 11, some 22, some (str "726"), some 5⟩
        [some 2, some 1]).ticket_ids =
      ((gatherResults [1, 0] [some 1, some 2]
          (fun _ => .resp 200 false (str ""))).filter (fun r => r.1)).map
        (fun r => r.2.1) := by
  refine ⟨by decide, by decide, by decide, ?_⟩
  have h := c4_otp_payload_ticket_ids sampleLayout 2 [] []
    [⟨some 1, some (str "KA-1")⟩, ⟨some 2, some (str "KA-2")⟩]
    (fun _ => .resp 200 false (str "")) [1, 0]
    ⟨some 11, some 22, some (str "726"), some 5⟩ [some 2, some 1]
    (by decide) (by decide) (by decide)
  simpa using h

/-- C6: under the concurrent-probe policy the probed candidate set is
the first `K = 3` trains of the (optionally name-filtered) search
results sorted descending by advertised online count for the requested
class: at most 3 candidates; when a train-name filter is configured
(lower-cased at startup), every candidate's label contains it as a
case-insensitive substring; the candidates are in descending order of
advertised count; and they extend to a permutation of the filtered
trains in which every non-candidate counts no more than any candidate. -/
theorem c6_probe_candidate_selection (trains : List Train)
    (rawName seat_class : Str) :
    (probeCandidates (configTrainName rawName) seat_class trains).length ≤ 3 ∧
    (configTrainName rawName ≠ [] →
      ∀ t ∈ probeCandidates (configTrainName rawName) seat_class trains,
        hasSub (configTrainName rawName) (lowerStr (t.trip_number.getD [])) = true) ∧
    List.Sorted
      (fun a b => online_seats_for_class b seat_class ≤ online_seats_for_class a seat_class)
      (probeCandidates (configTrainName rawName) seat_class trains) ∧
    ∃ rest,
      (probeCandidates (configTrainName rawName) seat_class trains ++ rest).Perm
        (trainNameFilter (configTrainName rawName) trains) ∧
      ∀ u ∈ rest, ∀ c ∈ probeCandidates (configTrainName rawName) seat_class trains,
        online_seats_for_class u seat_class ≤ online_seats_for_class c seat_class := by
  simp only [probeCandidates]
  have hperm := sortTrainsByOnline_perm seat_class
    (trainNameFilter (configTrainName rawName) trains)
  have hsorted := sortTrainsByOnline_sorted seat_class
    (trainNameFilter (configTrainName rawName) trains)
  refine ⟨List.length_take_le 3 _, ?_, ?_, ?_⟩
  · intro hne t ht
    have ht1 : t ∈ sortTrainsByOnline seat_class
        (trainNameFilter (configTrainName rawName) trains) :=
      List.mem_of_mem_take ht
    have ht2 : t ∈ trainNameFilter (configTrainName rawName) trains :=
      hperm.subset ht1
    have hE : (configTrainName rawName).isEmpty = false := by
      cases hn : configTrainName rawName with
      | nil => exact absurd hn hne
      | cons a l => rfl
    have ht3 : t ∈ trains ∧
        hasSub (configTrainName rawName) (lowerStr (t.trip_number.getD [])) = true := by
      simpa [trainNameFilter, hE] using ht2
    exact ht3.2
  · exact hsorted.sublist (List.take_sublist 3 _)
  · refine ⟨(sortTrainsByOnline seat_class
        (trainNameFilter (configTrainName rawName) trains)).drop 3, ?_, ?_⟩
    · rw [List.take_append_drop]
      exact hperm
    · have hp : List.Pairwise
          (fun a b => online_seats_for_class b seat_class ≤ online_seats_for_class a seat_class)
          ((sortTrainsByOnline seat_class
              (trainNameFilter (configTrainName rawName) trains)).take 3 ++
            (sortTrainsByOnline seat_class
              (trainNameFilter (configTrainName rawName) trains)).drop 3) := by
        rw [List.take_append_drop]
        exact hsorted
      obtain ⟨-, -, hcross⟩ := List.pairwise_append.mp hp
      exact fun u hu c hc => hcross c hc u hu

/-- C6 witness: four trains, a name filter, concrete counts — the
selection keeps at most 3, all matching the filter, in descending
order. -/
theorem c6_witness :
    (probeCandidates (configTrainName (str "EX")) (str "s_chair")
        [⟨some (str "Alpha"), none, some [⟨some (str "S_CHAIR"), some ⟨some 9⟩, some 1, some 2⟩], none⟩,
         ⟨some (str "Ex1"), none, some [⟨some (str "S_CHAIR"), some ⟨some 3⟩, some 3, some 4⟩], none⟩,
         ⟨some (str "Ex2"), none, some [⟨some (str "S_CHAIR"), some ⟨some 7⟩, some 5, some 6⟩], none⟩,
         ⟨some (str "Ex3"), none, some [⟨some (str "S_CHAIR"), some ⟨some 5⟩, some 7, some 8⟩], none⟩]).length ≤ 3 ∧
    (configTrainName (str "EX") ≠ [] →
      ∀ t ∈ probeCandidates (configTrainName (str "EX")) (str "s_chair")
        [⟨some (str "Alpha"), none, some [⟨some (str "S_CHAIR"), some ⟨some 9⟩, some 1, some 2⟩], none⟩,
         ⟨some (str "Ex1"), none, some [⟨some (str "S_CHAIR"), some ⟨some 3⟩, some 3, some 4⟩], none⟩,
         ⟨some (str "Ex2"), none, some [⟨some (str "S_CHAIR"), some ⟨some 7⟩, some 5, some 6⟩], none⟩,
         ⟨some (str "Ex3"), none, some [⟨some (str "S_CHAIR"), some ⟨some 5⟩, some 7, some 8⟩], none⟩],
        hasSub (configTrainName (str "EX")) (lowerStr (t.trip_number.getD [])) = true) := by
  have h := c6_probe_candidate_selection
    [⟨some (str "Alpha"), none, some [⟨some (str "S_CHAIR"), some ⟨some 9⟩, some 1, some 2⟩], none⟩,
     ⟨some (str "Ex1"), none, some [⟨some (str "S_CHAIR"), some ⟨some 3⟩, some 3, some 4⟩], none⟩,
     ⟨some (str "Ex2"), none, some [⟨some (str "S_CHAIR"), some ⟨some 7⟩, some 5, some 6⟩], none⟩,
     ⟨some (str "Ex3"), none, some [⟨some (str "S_CHAIR"), some ⟨some 5⟩, some 7, some 8⟩], none⟩]
    (str "EX") (str "s_chair")
  exact ⟨h.1, h.2.1⟩

/-- C5: the OTP Verifier performs at most 3 attempts; every verify call
made carries a well-formed entry of one of the attempts 1–3; when the
loop succeeds, the accepting call is the last call made (no further
verify call follows) and every earlier call was rejected; when all 3
attempts are malformed or rejected the loop fails, and the terminal
failure carries the last server response (`none` when no call was made)
as detail. -/
theorem c5_otp_verifier_bounds (entry : Nat → Str)
    (verify : Str → Except ExcInfo (JBody VData)) (out : OtpOut)
    (h : otpRun entry verify = .ok out) :
    (out.calls.length ≤ 3 ∧
     ∀ p ∈ out.calls, p.1 ∈ [1, 2, 3] ∧ p.2 = entry p.1 ∧ validOtp p.2 = true) ∧
    (out.verified = true →
      ∃ pre lastp b, out.calls = pre ++ [lastp] ∧
        (∀ p ∈ pre, rejectedCall verify p) ∧
        verify lastp.2 = .ok b ∧ vSuccess b = true ∧ out.user = vUser b) ∧
    (out.verified = false →
      (∀ p ∈ out.calls, rejectedCall verify p) ∧
      (out.calls = [] → out.lastErr = none) ∧
      (∀ p, out.calls.getLast? = some p →
        ∃ b, verify p.2 = .ok b ∧ out.lastErr = some b) ∧
      otpVerifier entry verify = .error ⟨.otpFailed out.lastErr, none⟩) ∧
    (attemptBad entry verify 1 ∧ attemptBad entry verify 2 ∧
        attemptBad entry verify 3 →
      out.verified = false) := by
  obtain ⟨⟨extra, hcalls, hlen, hmem⟩, h2, h3⟩ :=
    otpAttempts_spec entry verify [1, 2, 3] none [] out
      (by simp) (by simp) (by simp) h
  have hcalls' : out.calls = extra := by simpa using hcalls
  have hmem' : ∀ p ∈ out.calls, p.1 ∈ [1, 2, 3] ∧ p.2 = entry p.1 ∧
      validOtp p.2 = true := by
    intro p hp
    rw [hcalls'] at hp
    exact hmem p hp
  refine ⟨⟨?_, hmem'⟩, h2, ?_, ?_⟩
  · rw [hcalls']
    exact le_trans hlen (by simp)
  · intro hv
    obtain ⟨ha, hb, hc⟩ := h3 hv
    refine ⟨ha, hb, hc, ?_⟩
    rw [otpVerifier, h]
    simp [hv]
  · rintro ⟨b1, b2, b3⟩
    rcases Bool.eq_false_or_eq_true out.verified with hvt | hvf
    swap
    · exact hvf
    · exfalso
      obtain ⟨pre, lastp, b, hsplit, -, hvf, hvs, -⟩ := h2 hvt
      have hmemL : lastp ∈ out.calls := by
        rw [hsplit]; exact List.mem_append_right _ (by simp)
      obtain ⟨hk, hpe, hpv⟩ := hmem' _ hmemL
      have hbadk : attemptBad entry verify lastp.1 := by
        rcases (by simpa using hk : lastp.1 = 1 ∨ lastp.1 = 2 ∨ lastp.1 = 3)
          with hkk | hkk | hkk <;> rw [hkk] <;> assumption
      rcases hbadk with hbad | ⟨b', hb', hbs⟩
      · rw [← hpe] at hbad
        rw [hbad] at hpv
        cases hpv
      · rw [← hpe, hvf] at hb'
        have hbb : b = b' := Except.ok.inj hb'
        rw [← hbb] at hbs
        rw [hvs] at hbs
        cases hbs

/-- C5 witness: attempt 1 is malformed (too short, consuming the attempt
without a server call), attempt 2 is accepted; the loop makes exactly
one verify call and halts. -/
theorem c5_witness :
    (otpRun (fun k => if k = 1 then str "12" else str "1234")
        (fun _ => .ok (.dict ⟨true, some ⟨some (str "U"), none, none⟩⟩)) =
      .ok ⟨true, some ⟨some (str "U"), none, none⟩, none, [(2, str "1234")]⟩) ∧
    ([(2, str "1234")] : List (Nat × Str)).length ≤ 3 ∧
    (⟨true, some ⟨some (str "U"), none, none⟩, none,
        [(2, str "1234")]⟩ : OtpOut).verified = true := by
  refine ⟨by decide, ?_, by decide⟩
  have h := c5_otp_verifier_bounds
    (fun k => if k = 1 then str "12" else str "1234")
    (fun _ => .ok (.dict ⟨true, some ⟨some (str "U"), none, none⟩⟩))
    ⟨true, some ⟨some (str "U"), none, none⟩, none, [(2, str "1234")]⟩
    (by decide)
  exact h.1.1

/-- C8: whenever the rollback handler runs with a known trip route id,
it issues exactly one release call per ticket currently in the rollback
set (in order), for every behaviour of the release endpoint — a failing
release is caught and logged, never raised, and never prevents the
remaining release calls — and the handler's exit code, logged error and
reported message depend only on the original error, so rollback never
masks it. -/
theorem c8_rollback_release_calls (exc : ExcInfo) (t : Trip) (rid : Nat)
    (reserved : List (Option Nat))
    (release : Option Nat → Except ExcInfo Unit)
    (hrid : t.trip_route_id = some rid) :
    runHandler exc (some t) reserved release =
      .exited 1 exc.msg (shortMsgOf exc.details) reserved := by
  unfold runHandler
  cases reserved with
  | nil => simp
  | cons tid rest =>
    simp [rollbackLoop_calls release t rid hrid]

/-- C8 witness: two reserved tickets and a release endpoint that always
fails — the handler still issues both release calls and exits with the
original error. -/
theorem c8_witness :
    ((⟨some 11, some 22, some (str "726"), some 5⟩ : Trip).trip_route_id =
      some 22) ∧
    runHandler ⟨.noPaymentUrl, none⟩
        (some ⟨some 11, some 22, some (str "726"), some 5⟩)
        [some 1, some 2]
        (fun _ => .error ⟨.requestExn (str "boom"), none⟩) =
      .exited 1 Msg.noPaymentUrl Msg.rolledBackDefault [some 1, some 2] :=
  ⟨by decide,
   c8_rollback_release_calls ⟨.noPaymentUrl, none⟩
     ⟨some 11, some 22, some (str "726"), some 5⟩ 22 [some 1, some 2]
     (fun _ => .error ⟨.requestExn (str "boom"), none⟩) (by decide)⟩

/-- C9: for every HTTP response the server returns, whatever the status
code, the transport client returns the pair `(status, body)` — the
JSON-decoded body when decoding succeeds, else the raw text — and an
error is raised exactly for the timeout and connection-failure
transport events. -/
theorem c9_transport_client (α : Type) (method : Option Str) :
    (∀ (st : Nat) (j : Option α) (t : Str),
      axios_req method (.success st j t) =
        .ok (st, match j with
                 | some v => RespBody.json v
                 | none => RespBody.text t)) ∧
    (∀ ev : TransportEvent α,
      (∃ e, axios_req method ev = .error e) ↔
        (ev = .timeout ∨ ∃ m, ev = .netFail m)) := by
  constructor
  · intro st j t
    cases j <;> rfl
  · intro ev
    cases ev with
    | timeout => simp [axios_req]
    | netFail m => simp [axios_req]
    | success st j t =>
      constructor
      · rintro ⟨e, he⟩
        cases j <;> simp [axios_req] at he
      · rintro (hh | ⟨m, hh⟩) <;> cases hh

/-- C9 witness: a 404 response is returned as data `(404, raw text)`. -/
theorem c9_witness :
    @axios_req Unit none (.success 404 none (str "body")) =
      .ok (404, RespBody.text (str "body")) :=
  (c9_transport_client Unit none).1 404 none (str "body")

/-- C10 witness: the amended defensive behaviour at concrete inputs. -/
theorem c10_witness :
    find_available_seats .notDict 1 [] [] = .ok [] :=
  (c10_defensive_inputs 1 [] []).1.1

/-- C1 (failing input): a reservation round needing 2 seats in which
ticket 1 is reserved successfully and ticket 2 is rejected. The
coordinator raises, but `successfully_reserved` is only assigned *after*
the success-count check, so the rollback set at the raise is empty: the
run exits with **no release call at all** (and still reports "rolled
back"), although one reservation did succeed. -/
theorem c1_insufficient_round_leaks_reservations :
    mainRun sampleCfg shortReserveWorld =
      .exited 1
        (.reserveInsufficient 1 2 [(some 2, some (.respBody (str "err")))])
        .rolledBackDefault [] ∧
    (gatherResults [0, 1] [some 1, some 2]
        shortReserveWorld.reserveNet).filter (fun r => r.1) =
      [(true, some 1, none)] := by
  exact ⟨by decide, by decide⟩

/-- C3 counterexample: the user signs in successfully and answers `no`
at the post-sign-in checkpoint, before any reservation; the process
exits with code 1 (via the generic failure handler), not 0. -/
theorem c3_counterexample :
    mainRun sampleCfg declineWorld =
      .exited 1 Msg.userAborted Msg.rolledBackDefault [] ∧
    outcomeExitCode (mainRun sampleCfg declineWorld) ≠ 0 := by
  exact ⟨by decide, by decide⟩

/-- C3 (amended): whenever the user declines the post-sign-in
confirmation checkpoint, the decline raises a plain exception that the
generic handler treats like any other failure: the process terminates
with exit code 1 and the standard diagnostic; since nothing was
reserved, no release call is made. Exit code 0 occurs only when the
whole booking succeeds. -/
theorem c3_user_decline_exits_nonzero (cfg : Config) (w : World) (tk : Str)
    (hs : w.signin = .ok (.dict (some tk)))
    (hne : tk ≠ [])
    (hno : proceedYes w.proceed1 = false) :
    mainRun cfg w = .exited 1 Msg.userAborted Msg.rolledBackDefault [] ∧
    outcomeExitCode (mainRun cfg w) = 1 := by
  have hE : tk.isEmpty = false := by
    cases tk with
    | nil => exact absurd rfl hne
    | cons a l => rfl
  have hrun : mainRun cfg w =
      .exited 1 Msg.userAborted Msg.rolledBackDefault [] := by
    rw [mainRun, hs]
    simp [hE, hno, runHandler, shortMsgOf]
  exact ⟨hrun, by rw [hrun]; rfl⟩

/-- C3 witness: the amended behaviour at the concrete declining run. -/
theorem c3_witness :
    (declineWorld.signin = .ok (.dict (some (str "tok")))) ∧
    (str "tok" ≠ []) ∧
    (proceedYes declineWorld.proceed1 = false) ∧
    (mainRun sampleCfg declineWorld =
      .exited 1 Msg.userAborted Msg.rolledBackDefault [] ∧
     outcomeExitCode (mainRun sampleCfg declineWorld) = 1) :=
  ⟨by decide, by decide, by decide,
   c3_user_decline_exits_nonzero sampleCfg declineWorld (str "tok")
     (by decide) (by decide) (by decide)⟩

end RailBooking
